import Mathlib

/-!
Verification of the resilience and streaming layer of the todo-agent backend.

The definitions below are shallow embeddings of:
- src/src/resilience/circuit_breaker.py (circuit breaker state machine),
- src/src/resilience/retry.py          (tenacity-style bounded retry),
- src/src/streaming/chatkit.py         (stream event mapper / builder),
- src/src/api/routes.py                (chat stream generator and its
                                        error classification branches).

Timestamps are modelled as integers (`Int`), standing for datetime values;
`datetime.utcnow() - last_failure_time >= recovery_timeout` becomes
`recovery_timeout <= now - t`.
-/

/-! ## Circuit breaker (src/src/resilience/circuit_breaker.py) -/

/-- `CircuitState` enum: CLOSED / OPEN / HALF_OPEN. -/
inductive CircuitState
  | closed
  | «open»
  | halfOpen
deriving DecidableEq

/-- `CircuitBreakerConfig`: thresholds for the breaker state machine.
`recovery_timeout` is a duration (timedelta), modelled as an `Int`. -/
structure CircuitBreakerConfig where
  failure_threshold : Nat
  recovery_timeout : Int
  half_open_max_calls : Nat
deriving DecidableEq

/-- `CircuitBreakerState`: the mutable state of one breaker. -/
structure CircuitBreakerState where
  state : CircuitState := .closed
  failure_count : Nat := 0
  last_failure_time : Option Int := none
  last_state_change : Int := 0
  consecutive_successes : Nat := 0
deriving DecidableEq

/-- The dataclass defaults: CLOSED, zero counters, no failure recorded. -/
def CircuitBreakerState.initial : CircuitBreakerState := {}

namespace CircuitBreaker

/-- `CircuitBreaker._should_attempt_reset`: true when the breaker is OPEN,
a failure time is recorded, and `recovery_timeout` has elapsed since it. -/
def should_attempt_reset (cfg : CircuitBreakerConfig) (s : CircuitBreakerState)
    (now : Int) : Bool :=
  match s.state, s.last_failure_time with
  | .«open», some t => decide (cfg.recovery_timeout ≤ now - t)
  | _, _ => false

/-- `CircuitBreaker._transition_to_half_open`. -/
def transition_to_half_open (s : CircuitBreakerState) (now : Int) :
    CircuitBreakerState :=
  { s with state := .halfOpen, consecutive_successes := 0, last_state_change := now }

/-- `CircuitBreaker._transition_to_open`. -/
def transition_to_open (s : CircuitBreakerState) (now : Int) :
    CircuitBreakerState :=
  { s with state := .«open», last_failure_time := some now,
           last_state_change := now, consecutive_successes := 0 }

/-- `CircuitBreaker._transition_to_closed`: resets both counters. -/
def transition_to_closed (s : CircuitBreakerState) (now : Int) :
    CircuitBreakerState :=
  { s with state := .closed, failure_count := 0, consecutive_successes := 0,
           last_state_change := now }

/-- `CircuitBreaker._record_success`. -/
def record_success (cfg : CircuitBreakerConfig) (s : CircuitBreakerState)
    (now : Int) : CircuitBreakerState :=
  match s.state with
  | .halfOpen =>
      let s1 := { s with consecutive_successes := s.consecutive_successes + 1 }
      if cfg.half_open_max_calls ≤ s1.consecutive_successes then
        transition_to_closed s1 now
      else s1
  | .closed => { s with failure_count := 0 }
  | .«open» => s

/-- `CircuitBreaker._record_failure`: stamps `last_failure_time` first, then
branches on the current state. -/
def record_failure (cfg : CircuitBreakerConfig) (s : CircuitBreakerState)
    (now : Int) : CircuitBreakerState :=
  let s0 := { s with last_failure_time := some now }
  match s.state with
  | .halfOpen => transition_to_open s0 now
  | .closed =>
      let s1 := { s0 with failure_count := s0.failure_count + 1 }
      if cfg.failure_threshold ≤ s1.failure_count then transition_to_open s1 now
      else s1
  | .«open» => s0

/-- Result of one `CircuitBreaker.call`: the new breaker state, the breaker
state under which the wrapped operation ran (`none` when fast-failed), and
whether `CircuitBreakerError` was raised. -/
structure CallResult where
  st : CircuitBreakerState
  invoked : Option CircuitBreakerState
  raised_circuit_open : Bool
deriving DecidableEq

/-- `CircuitBreaker.call`, with the wrapped async operation abstracted to its
outcome `op_succeeds` (the operation body itself is opaque to the breaker). -/
def call (cfg : CircuitBreakerConfig) (s : CircuitBreakerState) (now : Int)
    (op_succeeds : Bool) : CallResult :=
  let s1 := if should_attempt_reset cfg s now then transition_to_half_open s now else s
  if s1.state = .«open» then
    { st := s1, invoked := none, raised_circuit_open := true }
  else if op_succeeds then
    { st := record_success cfg s1 now, invoked := some s1, raised_circuit_open := false }
  else
    { st := record_failure cfg s1 now, invoked := some s1, raised_circuit_open := false }

/-- A sequence of calls whose wrapped operation fails every time, at the
given sequence of timestamps. -/
def run_failures (cfg : CircuitBreakerConfig) (s : CircuitBreakerState)
    (ts : List Int) : CircuitBreakerState :=
  ts.foldl (fun st t => (call cfg st t false).st) s

/-- A sequence of calls whose wrapped operation succeeds every time. -/
def run_successes (cfg : CircuitBreakerConfig) (s : CircuitBreakerState)
    (ts : List Int) : CircuitBreakerState :=
  ts.foldl (fun st t => (call cfg st t true).st) s

end CircuitBreaker

/-! ## Retry policy (src/src/resilience/retry.py) -/

/-- Exception kinds relevant to the retry predicate.  `RETRIABLE_EXCEPTIONS =
(ConnectionError, TimeoutError, OSError)`; everything else is a non-retryable
error carried with its message. -/
inductive PyExc
  | connectionError
  | timeoutError
  | osError
  | other (msg : String)
deriving DecidableEq

/-- `retry_if_exception_type(RETRIABLE_EXCEPTIONS)`. -/
def retriable_exception : PyExc → Bool
  | .connectionError => true
  | .timeoutError => true
  | .osError => true
  | .other _ => false

/-- The tenacity loop of `retry(stop=stop_after_attempt(n), retry=
retry_if_exception_type(RETRIABLE_EXCEPTIONS), reraise=True)`.  The wrapped
operation is modelled as a function from the 0-based invocation index to its
outcome; the result pairs the final outcome with the number of invocations
made.  `remaining` counts the attempts still allowed (so the first argument
of the recursion is `max_attempts`); the attempt whose `remaining` is 1 is
the final attempt, after which a retryable failure is re-raised unchanged.
Backoff sleeps do not affect the outcome and are not modelled. -/
def retry_attempts (op : Nat → Except PyExc α) :
    Nat → Nat → Except PyExc α × Nat
  | 0, calls => (.error (.other ""), calls)
  | remaining + 1, calls =>
      match op calls with
      | .ok v => (.ok v, calls + 1)
      | .error e =>
          if retriable_exception e ∧ remaining ≠ 0 then
            retry_attempts op remaining (calls + 1)
          else
            (.error e, calls + 1)

/-- A retry decorator with the given `max_attempts`, applied to an operation. -/
def with_retry (max_attempts : Nat) (op : Nat → Except PyExc α) :
    Except PyExc α × Nat :=
  retry_attempts op max_attempts 0

/-- `create_mcp_retry_decorator`: `stop_after_attempt(5)`. -/
def create_mcp_retry_decorator (op : Nat → Except PyExc α) : Except PyExc α × Nat :=
  with_retry 5 op

/-- `create_gemini_retry_decorator`: `stop_after_attempt(3)`. -/
def create_gemini_retry_decorator (op : Nat → Except PyExc α) : Except PyExc α × Nat :=
  with_retry 3 op

/-- The operation fails at invocation `i` with a retryable error. -/
def retriable_failure_at (op : Nat → Except PyExc α) (i : Nat) : Prop :=
  ∃ e, op i = .error e ∧ retriable_exception e = true

/-! ## Stream event mapper (src/src/streaming/chatkit.py) -/

/-- `ToolStatus` enum. -/
inductive ToolStatus
  | IN_PROGRESS
  | COMPLETED
  | FAILED
deriving DecidableEq

/-- `ErrorType` enum. -/
inductive ErrorType
  | TOOL_EXECUTION_FAILED
  | MCP_CONNECTION_ERROR
  | GEMINI_API_ERROR
  | TIMEOUT
  | INVALID_TOOL_ARGUMENTS
deriving DecidableEq

/-- JSON scalar values, enough to model decoded tool arguments. -/
inductive JsonValue
  | jstr (s : String)
  | jnum (n : Int)
  | jbool (b : Bool)
  | jnull
deriving DecidableEq

/-- A decoded tool-argument mapping (a Python dict). -/
abbrev ToolArguments := List (String × JsonValue)

/-- The outbound ChatKit wire events, one constructor per SSE event type,
with the payload fields of each `data` object. -/
inductive OutEvent
  | thinking (content : String)
  | tool_call (tool_name : String) (arguments : ToolArguments) (status : ToolStatus)
  | response_delta (delta : String) (accumulated : String)
  | error (error_type : ErrorType) (message : String) (recoverable : Bool)
  | done (final_output : String) (tools_called : List String) (success : Bool)
deriving DecidableEq

def isDoneEvent : OutEvent → Bool
  | .done _ _ _ => true
  | _ => false

def isErrorEvent : OutEvent → Bool
  | .error _ _ _ => true
  | _ => false

/-- Python `sub in s` on strings. -/
def strContains (s sub : String) : Bool :=
  s.toList.tails.any (fun t => sub.toList.isPrefixOf t)

/-- Association-list update with Python dict-assignment semantics
(overwrite the existing key, else append). -/
def assocInsert (m : List (String × α)) (k : String) (v : α) : List (String × α) :=
  match m with
  | [] => [(k, v)]
  | (k', v') :: rest =>
      if k' = k then (k, v) :: rest else (k', v') :: assocInsert rest k v

/-- Association-list lookup (Python `dict.get`). -/
def assocLookup (m : List (String × α)) (k : String) : Option α :=
  match m with
  | [] => none
  | (k', v') :: rest => if k' = k then some v' else assocLookup rest k


/-- `StreamBuilder`: per-request mapper state (accumulated response text,
ordered set of distinct tools called, and the `call_id` correlation table
`_tool_calls_by_id`). -/
structure StreamBuilder where
  accumulated_text : String := ""
  tools_called : List String := []
  tool_calls_by_id : List (String × String × ToolArguments) := []
deriving DecidableEq

namespace StreamBuilder

/-- `StreamBuilder.track_tool_call`: record `(call_id → (tool_name,
arguments))`; a falsy (empty) `call_id` is ignored. -/
def track_tool_call (b : StreamBuilder) (call_id tool_name : String)
    (arguments : ToolArguments) : StreamBuilder :=
  if call_id = "" then b
  else { b with tool_calls_by_id := assocInsert b.tool_calls_by_id call_id (tool_name, arguments) }

/-- `StreamBuilder.get_tracked_tool_call`. -/
def get_tracked_tool_call (b : StreamBuilder) (call_id : String) :
    Option (String × ToolArguments) :=
  assocLookup b.tool_calls_by_id call_id

/-- `StreamBuilder.add_thinking` (stateless). -/
def add_thinking (b : StreamBuilder) (content : String) : StreamBuilder × OutEvent :=
  (b, .thinking content)

/-- `StreamBuilder.add_tool_call`: appends `tool_name` to `tools_called` when
not already present, and produces the `tool_call` event. -/
def add_tool_call (b : StreamBuilder) (tool_name : String)
    (arguments : ToolArguments) (status : ToolStatus) : StreamBuilder × OutEvent :=
  ({ b with tools_called :=
      if tool_name ∈ b.tools_called then b.tools_called
      else b.tools_called ++ [tool_name] },
   .tool_call tool_name arguments status)

/-- `StreamBuilder.add_response_delta`: accumulates text. -/
def add_response_delta (b : StreamBuilder) (delta : String) :
    StreamBuilder × OutEvent :=
  ({ b with accumulated_text := b.accumulated_text ++ delta },
   .response_delta delta (b.accumulated_text ++ delta))

/-- `StreamBuilder.add_error` (stateless). -/
def add_error (b : StreamBuilder) (error_type : ErrorType) (message : String)
    (recoverable : Bool) : StreamBuilder × OutEvent :=
  (b, .error error_type message recoverable)

/-- `StreamBuilder.add_done`: `final_output` defaults to the accumulated
text; `tools_called` is always attached. -/
def add_done (b : StreamBuilder) (final_output : Option String) (success : Bool) :
    StreamBuilder × OutEvent :=
  (b, .done (final_output.getD b.accumulated_text) b.tools_called success)

end StreamBuilder

/-- How the `arguments` attribute of a tool-invocation-started raw item
arrives: as an encoded string, as an already-decoded mapping, or absent. -/
inductive RawArgs
  | argsStr (s : String)
  | argsDict (d : ToolArguments)
  | argsNone
deriving DecidableEq

/-- The fields the mapper extracts from a `tool_called` run item. -/
structure ToolCalledItem where
  tool_name : Option String
  call_id : Option String
  arguments : RawArgs
deriving DecidableEq

/-- Python `raw_args.strip()` being falsy: every character is whitespace
(this includes the empty string). -/
def py_str_is_blank (s : String) : Bool :=
  s.toList.all (fun c => c.isWhitespace)

/-- Argument decoding in the `tool_called` branch of
`map_agent_event_to_chatkit`: a string is JSON-parsed when non-blank
(`json.loads` is abstracted by the `parse` parameter); on parse failure the
raw string is wrapped under a single `raw` key; a dict is used as-is;
anything else yields the empty mapping. -/
def decode_tool_args (parse : String → Option ToolArguments) : RawArgs → ToolArguments
  | .argsStr s =>
      if py_str_is_blank s then []
      else
        match parse s with
        | some d => d
        | none => [("raw", .jstr s)]
  | .argsDict d => d
  | .argsNone => []

/-- The `tool_called` branch of `map_agent_event_to_chatkit`: decode the
arguments, track the call when both `call_id` and `tool_name` are truthy,
and emit TOOL_CALL(IN_PROGRESS) when `tool_name` is truthy. -/
def handle_tool_called (parse : String → Option ToolArguments)
    (b : StreamBuilder) (it : ToolCalledItem) : StreamBuilder × Option OutEvent :=
  let tool_args := decode_tool_args parse it.arguments
  let b1 :=
    match it.call_id, it.tool_name with
    | some cid, some n =>
        if cid ≠ "" ∧ n ≠ "" then b.track_tool_call cid n tool_args else b
    | _, _ => b
  match it.tool_name with
  | some n =>
      if n ≠ "" then
        let r := b1.add_tool_call n tool_args .IN_PROGRESS
        (r.1, some r.2)
      else (b1, none)
  | none => (b1, none)

/-- The `tool_output` branch of `map_agent_event_to_chatkit`: when the
item carries a truthy `call_id` that correlates to a tracked started call,
emit TOOL_CALL(COMPLETED) with the stored name and arguments; otherwise
emit nothing.  The correlation-table entry is never removed. -/
def handle_tool_output (b : StreamBuilder) (call_id : Option String) :
    StreamBuilder × Option OutEvent :=
  match call_id with
  | some cid =>
      if cid ≠ "" then
        match b.get_tracked_tool_call cid with
        | some (n, args) =>
            let r := b.add_tool_call n args .COMPLETED
            (r.1, some r.2)
        | none => (b, none)
      else (b, none)
  | none => (b, none)

/-! ## Chat stream generator (src/src/api/routes.py, `chat_stream_generator`) -/

/-- Result of one of the generator's exception handlers: the `error_type`,
user-facing `message` and `recoverable` flag passed to `add_error`. -/
structure StreamErrorResult where
  error_type : ErrorType
  message : String
  recoverable : Bool
deriving DecidableEq

/-- The `except CircuitBreakerError` handler of `chat_stream_generator`:
chooses the error type and message from the lowercased error string
(`"mcp"`/`"todo"` → MCP breaker, else `"gemini"`/`"api"` → Gemini breaker,
else generic); always recoverable. -/
def handle_circuit_breaker_exception (error_str : String) : StreamErrorResult :=
  if strContains error_str "mcp" || strContains error_str "todo" then
    { error_type := .MCP_CONNECTION_ERROR,
      message := "The todo management service is temporarily unavailable due to repeated failures. Our system is automatically monitoring the service and will restore access once it\x27s healthy. Please try again in a few moments.",
      recoverable := true }
  else if strContains error_str "gemini" || strContains error_str "api" then
    { error_type := .GEMINI_API_ERROR,
      message := "The AI language service is temporarily unavailable due to repeated failures. Our system is automatically monitoring the service and will restore access once it\x27s healthy. Please try again in a few moments.",
      recoverable := true }
  else
    { error_type := .GEMINI_API_ERROR,
      message := "A critical service is temporarily unavailable. Our system is working to restore access. Please try again shortly.",
      recoverable := true }

/-- The `except Exception` handler of `chat_stream_generator`: classifies
the lowercased error string through the fixed chain of `if`/`elif` branches
(connection → timeout → tool failure → invalid arguments → database →
intent-specific generic), with messages specialised by the detected intent
(CREATE/LIST/UPDATE/DELETE) or matching operation keywords.  `recoverable`
starts true and is never set to false. -/
def handle_stream_exception (error_str : String) (detected_intent : Option String) :
    StreamErrorResult :=
  let is_create := detected_intent == some "CREATE"
    || strContains error_str "create_todo" || strContains error_str "create"
  let is_list := detected_intent == some "LIST"
    || strContains error_str "list_todos"
    || (strContains error_str "list" && strContains error_str "todo")
  let is_update := detected_intent == some "UPDATE"
    || strContains error_str "update_todo"
    || (strContains error_str "update" && strContains error_str "todo")
  let is_delete := detected_intent == some "DELETE"
    || strContains error_str "delete_todo"
    || (strContains error_str "delete" && strContains error_str "todo")
  if strContains error_str "mcp" || strContains error_str "connection" then
    { error_type := .MCP_CONNECTION_ERROR,
      message :=
        if is_create then "Unable to create your todo - the todo service is currently unavailable. Please try again in a moment."
        else if is_list then "Unable to fetch your todos - the todo service is currently unavailable. Please try again in a moment."
        else if is_update then "Unable to update your todo - the todo service is currently unavailable. Please try again in a moment."
        else if is_delete then "Unable to delete your todo - the todo service is currently unavailable. Please try again in a moment."
        else "Failed to connect to the todo service. Please try again.",
      recoverable := true }
  else if strContains error_str "timeout" then
    { error_type := .TIMEOUT,
      message :=
        if is_create then "Creating your todo is taking longer than expected. Please try again."
        else if is_list then "Fetching your todos is taking longer than expected. Please try again."
        else if is_update then "Updating your todo is taking longer than expected. Please try again."
        else if is_delete then "Deleting your todo is taking longer than expected. Please try again."
        else "Request timed out. Please try again.",
      recoverable := true }
  else if strContains error_str "tool"
      && (strContains error_str "failed" || strContains error_str "error") then
    { error_type := .TOOL_EXECUTION_FAILED,
      message :=
        if is_create then "Failed to create your todo. The task details may be invalid or the database is unavailable. Please check your input and try again."
        else if is_list then "Failed to retrieve your todos. The database may be unavailable. Please try again."
        else if is_update then "Failed to update your todo. The todo may not exist or the update parameters are invalid. Please check and try again."
        else if is_delete then "Failed to delete your todo. The todo may not exist or the database is unavailable. Please check and try again."
        else "Tool execution failed. Please try again.",
      recoverable := true }
  else if strContains error_str "invalid" || strContains error_str "validation" then
    { error_type := .INVALID_TOOL_ARGUMENTS,
      message :=
        if is_create then "Unable to create todo - the task details couldn\x27t be processed. Please try rephrasing your request with clear title and due date."
        else if is_list then "Unable to list todos - the filter parameters couldn\x27t be processed. Please try rephrasing your query (e.g., \x27show my todos\x27, \x27what\x27s due today\x27)."
        else if is_update then "Unable to update todo - the update parameters couldn\x27t be processed. Please specify which todo to update and what changes to make (e.g., \x27mark task #5 as complete\x27)."
        else if is_delete then "Unable to delete todo - the deletion parameters couldn\x27t be processed. Please specify which todo to delete (e.g., \x27delete task #5\x27, \x27remove the shopping task\x27)."
        else "Invalid request format. Please try rephrasing.",
      recoverable := true }
  else if strContains error_str "database" || strContains error_str "db"
      || strContains error_str "constraint" then
    { error_type := .TOOL_EXECUTION_FAILED,
      message :=
        if is_create then "Unable to save your todo - database error occurred. Please try again."
        else if is_list then "Unable to retrieve your todos - database error occurred. Please try again."
        else if is_update then "Unable to update your todo - database error occurred. Please try again."
        else if is_delete then "Unable to delete your todo - database error occurred. Please try again."
        else "Database error occurred. Please try again.",
      recoverable := true }
  else
    { error_type := .GEMINI_API_ERROR,
      message :=
        if is_create then "Sorry, I couldn\x27t create your todo. Please try again or rephrase your request."
        else if is_list then "Sorry, I couldn\x27t fetch your todo list. Please try again or rephrase your request."
        else if is_update then "Sorry, I couldn\x27t update your todo. Please make sure you specify which todo to update and try again."
        else if is_delete then "Sorry, I couldn\x27t delete your todo. Please make sure you specify which todo to delete and try again."
        else "An unexpected error occurred. Please try again.",
      recoverable := true }

/-- The degraded-mode message streamed when `mcp_server is None`. -/
def degraded_message : String :=
  "I\x27m currently unable to access the todo database due to a temporary service issue. The todo management system is unavailable right now, but our team is working to restore it. Please try again in a few moments."

/-- How one request's agent run terminates: the event loop is exhausted
normally, or pulling the stream raises `CircuitBreakerError`, or it raises
any other exception (each carrying the lowercased `str(e)`). -/
inductive RunTerm
  | normal
  | circuit_breaker_error (error_str : String)
  | exception (error_str : String)
deriving DecidableEq

/-- Shallow embedding of `chat_stream_generator`'s emitted event sequence.
The opaque agent run is abstracted by: `body` (the events yielded while
iterating `result.stream_events()`, none of which is ERROR-terminal or
DONE), `b_after` (the `StreamBuilder` state when the loop ends or the
exception propagates), `detected_intent`, and `term` (how the run ends).
The control flow mirrors the source: the degraded-mode short-circuit when
`mcp_server` is `None`; otherwise one initial THINKING event, the loop
body, then either the success DONE, or the `CircuitBreakerError` handler
(which yields only ERROR), or the generic handler (ERROR then DONE). -/
def chat_stream_generator (mcp_server : Option Unit) (initial_thinking : String)
    (body : List OutEvent) (b_after : StreamBuilder)
    (detected_intent : Option String) (term : RunTerm) : List OutEvent :=
  let b : StreamBuilder := {}
  match mcp_server with
  | none =>
      let r1 := b.add_error .MCP_CONNECTION_ERROR degraded_message true
      let r2 := r1.1.add_done (some "Service temporarily unavailable") false
      [r1.2, r2.2]
  | some _ =>
      (b.add_thinking initial_thinking).2 ::
      body ++
      match term with
      | .normal =>
          let final_output :=
            if b_after.accumulated_text = "" then "Request processed successfully."
            else b_after.accumulated_text
          [(b_after.add_done (some final_output) true).2]
      | .circuit_breaker_error s =>
          let r := handle_circuit_breaker_exception s
          [(b_after.add_error r.error_type r.message r.recoverable).2]
      | .exception s =>
          let r := handle_stream_exception s detected_intent
          [(b_after.add_error r.error_type r.message r.recoverable).2,
           (b_after.add_done (some "Error occurred during processing") false).2]


/-- Concrete operation for the C8 witness: fails with `ConnectionError` on
invocations 0 and 1, succeeds with value 42 on invocation 2. -/
def retry_witness_op : Nat → Except PyExc Nat :=
  fun i => if i < 2 then .error .connectionError else .ok 42

/-! ## Proofs -/

open CircuitBreaker

lemma run_failures_cons (cfg : CircuitBreakerConfig) (s : CircuitBreakerState)
    (t : Int) (ts : List Int) :
    run_failures cfg s (t :: ts) = run_failures cfg (call cfg s t false).st ts := rfl

lemma run_successes_cons (cfg : CircuitBreakerConfig) (s : CircuitBreakerState)
    (t : Int) (ts : List Int) :
    run_successes cfg s (t :: ts) = run_successes cfg (call cfg s t true).st ts := rfl

lemma should_attempt_reset_of_not_open (cfg : CircuitBreakerConfig)
    (s : CircuitBreakerState) (now : Int) (hs : s.state ≠ .«open») :
    should_attempt_reset cfg s now = false := by
  unfold should_attempt_reset
  cases h : s.state <;> simp_all

/-- A failed call in the OPEN state leaves the breaker OPEN (either by
fast-failing, or by probing HALF_OPEN and immediately reopening). -/
lemma call_fail_open_state (cfg : CircuitBreakerConfig) (s : CircuitBreakerState)
    (t : Int) (hs : s.state = .«open») (hf : s.last_failure_time.isSome) :
    (call cfg s t false).st.state = .«open» ∧
    (call cfg s t false).st.last_failure_time.isSome := by
  by_cases hr : should_attempt_reset cfg s t = true
  · simp [call, hr, transition_to_half_open, record_failure, transition_to_open]
  · rw [Bool.not_eq_true] at hr
    simp [call, hr, hs, hf]

lemma run_failures_open (cfg : CircuitBreakerConfig) (ts : List Int) :
    ∀ s : CircuitBreakerState, s.state = .«open» → s.last_failure_time.isSome →
    (run_failures cfg s ts).state = .«open» ∧
    (run_failures cfg s ts).last_failure_time.isSome := by
  induction ts with
  | nil => exact fun s hs hf => ⟨hs, hf⟩
  | cons t ts ih =>
      intro s hs hf
      have h := call_fail_open_state cfg s t hs hf
      rw [run_failures_cons]
      exact ih _ h.1 h.2

/-- A failed call in the CLOSED state: opens the circuit when the threshold
is reached, otherwise just increments `failure_count`. -/
lemma call_fail_closed_cases (cfg : CircuitBreakerConfig) (s : CircuitBreakerState)
    (t : Int) (hs : s.state = .closed) :
    (cfg.failure_threshold ≤ s.failure_count + 1 →
      (call cfg s t false).st.state = .«open» ∧
      (call cfg s t false).st.last_failure_time.isSome) ∧
    (s.failure_count + 1 < cfg.failure_threshold →
      (call cfg s t false).st.state = .closed ∧
      (call cfg s t false).st.failure_count = s.failure_count + 1) := by
  have hr : should_attempt_reset cfg s t = false :=
    should_attempt_reset_of_not_open cfg s t (by simp [hs])
  constructor
  · intro hth
    simp [call, hr, hs, record_failure, transition_to_open, hth]
  · intro hlt
    have hth : ¬ (cfg.failure_threshold ≤ s.failure_count + 1) := by omega
    simp [call, hr, hs, record_failure, hth]

lemma run_failures_from_closed (cfg : CircuitBreakerConfig) (ts : List Int) :
    ∀ s : CircuitBreakerState, s.state = .closed →
    s.failure_count < cfg.failure_threshold →
    cfg.failure_threshold ≤ s.failure_count + ts.length →
    (run_failures cfg s ts).state = .«open» ∧
    (run_failures cfg s ts).last_failure_time.isSome := by
  induction ts with
  | nil =>
      intro s _ h1 h2
      simp only [List.length_nil, Nat.add_zero] at h2
      omega
  | cons t ts ih =>
      intro s hs h1 h2
      simp only [List.length_cons] at h2
      rw [run_failures_cons]
      by_cases hth : cfg.failure_threshold ≤ s.failure_count + 1
      · have h := (call_fail_closed_cases cfg s t hs).1 hth
        exact run_failures_open cfg ts _ h.1 h.2
      · have h := (call_fail_closed_cases cfg s t hs).2 (by omega)
        exact ih _ h.1 (by omega) (by rw [h.2]; omega)

/-- An OPEN breaker that is not yet eligible for recovery fast-fails:
`CircuitBreakerError` is raised, the operation is not invoked, and the
state is unchanged. -/
lemma call_fast_fail (cfg : CircuitBreakerConfig) (s : CircuitBreakerState)
    (now : Int) (b : Bool) (hs : s.state = .«open»)
    (hr : should_attempt_reset cfg s now = false) :
    call cfg s now b = { st := s, invoked := none, raised_circuit_open := true } := by
  simp [call, hr, hs]

/-- Claim C2: starting from the initial CLOSED state with `failure_count = 0`,
any sequence of at least `failure_threshold` consecutive failed calls leaves
the breaker OPEN, and a further call made before `recovery_timeout` has
elapsed since the recorded last failure raises `CircuitBreakerError` without
invoking the wrapped operation (and without changing the state). -/
theorem circuit_opens_after_threshold_failures_then_fast_fails
    (cfg : CircuitBreakerConfig) (ts : List Int) (now : Int) (op_succeeds : Bool)
    (hth : 1 ≤ cfg.failure_threshold)
    (hlen : cfg.failure_threshold ≤ ts.length)
    (hrecent : ∀ t, (run_failures cfg .initial ts).last_failure_time = some t →
      now - t < cfg.recovery_timeout) :
    (run_failures cfg .initial ts).state = .«open» ∧
    (call cfg (run_failures cfg .initial ts) now op_succeeds).raised_circuit_open = true ∧
    (call cfg (run_failures cfg .initial ts) now op_succeeds).invoked = none ∧
    (call cfg (run_failures cfg .initial ts) now op_succeeds).st =
      run_failures cfg .initial ts := by
  obtain ⟨hopen, hsome⟩ :=
    run_failures_from_closed cfg ts .initial rfl (by simpa [CircuitBreakerState.initial] using hth)
      (by simpa [CircuitBreakerState.initial] using hlen)
  obtain ⟨t, ht⟩ := Option.isSome_iff_exists.mp hsome
  have hlt := hrecent t ht
  have hr : should_attempt_reset cfg (run_failures cfg .initial ts) now = false := by
    simp [should_attempt_reset, hopen, ht]
    omega
  have hcall := call_fast_fail cfg _ now op_succeeds hopen hr
  exact ⟨hopen, by rw [hcall], by rw [hcall], by rw [hcall]⟩

/-- Witness for C2 at the Tool-Server breaker configuration
(threshold 5, recovery timeout 30, half-open max 3): five failures at times
0..4, then a call at time 10 fast-fails. -/
theorem circuit_opens_after_threshold_failures_then_fast_fails_witness :
    (call ⟨5, 30, 3⟩ (run_failures ⟨5, 30, 3⟩ .initial [0, 1, 2, 3, 4]) 10
      false).raised_circuit_open = true ∧
    (call ⟨5, 30, 3⟩ (run_failures ⟨5, 30, 3⟩ .initial [0, 1, 2, 3, 4]) 10
      false).invoked = none :=
  have h := circuit_opens_after_threshold_failures_then_fast_fails
    ⟨5, 30, 3⟩ [0, 1, 2, 3, 4] 10 false (by decide) (by decide)
    (fun t ht => by
      have h4 : (run_failures ⟨5, 30, 3⟩ .initial [0, 1, 2, 3, 4]).last_failure_time
          = some 4 := by decide
      rw [h4] at ht
      injection ht with h
      rw [← h]
      decide)
  ⟨h.2.1, h.2.2.1⟩

/-- Claim C5: an OPEN breaker whose `recovery_timeout` has elapsed since
`last_failure_time` transitions to HALF_OPEN (with `consecutive_successes`
reset to 0) and then actually invokes the wrapped operation instead of
raising `CircuitBreakerError`. -/
theorem open_breaker_attempts_after_recovery_timeout
    (cfg : CircuitBreakerConfig) (s : CircuitBreakerState) (now t : Int)
    (op_succeeds : Bool)
    (hs : s.state = .«open») (ht : s.last_failure_time = some t)
    (helapsed : cfg.recovery_timeout ≤ now - t) :
    (call cfg s now op_succeeds).raised_circuit_open = false ∧
    (call cfg s now op_succeeds).invoked = some (transition_to_half_open s now) ∧
    (transition_to_half_open s now).state = .halfOpen ∧
    (transition_to_half_open s now).consecutive_successes = 0 := by
  have hr : should_attempt_reset cfg s now = true := by
    simp [should_attempt_reset, hs, ht, helapsed]
  refine ⟨?_, ?_, rfl, rfl⟩ <;>
    · simp only [call, hr, if_true]
      cases op_succeeds <;> simp [transition_to_half_open]

/-- Witness for C5: breaker OPEN since time 0 with timeout 30; a call at
time 30 is attempted in the HALF_OPEN state. -/
theorem open_breaker_attempts_after_recovery_timeout_witness :
    (call ⟨5, 30, 3⟩ ⟨.«open», 5, some 0, 0, 0⟩ 30 true).raised_circuit_open = false ∧
    (call ⟨5, 30, 3⟩ ⟨.«open», 5, some 0, 0, 0⟩ 30 true).invoked
      = some (transition_to_half_open ⟨.«open», 5, some 0, 0, 0⟩ 30) :=
  have h := open_breaker_attempts_after_recovery_timeout
    ⟨5, 30, 3⟩ ⟨.«open», 5, some 0, 0, 0⟩ 30 0 true rfl rfl (by decide)
  ⟨h.1, h.2.1⟩

/-- A successful call in HALF_OPEN below the success threshold stays
HALF_OPEN and increments `consecutive_successes`. -/
lemma call_succ_half_open (cfg : CircuitBreakerConfig) (s : CircuitBreakerState)
    (t : Int) (hs : s.state = .halfOpen)
    (hlt : s.consecutive_successes + 1 < cfg.half_open_max_calls) :
    (call cfg s t true).st.state = .halfOpen ∧
    (call cfg s t true).st.consecutive_successes = s.consecutive_successes + 1 := by
  have hr : should_attempt_reset cfg s t = false :=
    should_attempt_reset_of_not_open cfg s t (by simp [hs])
  have hmax : ¬ (cfg.half_open_max_calls ≤ s.consecutive_successes + 1) := by omega
  simp [call, hr, hs, record_success, hmax]

lemma run_successes_half_open (cfg : CircuitBreakerConfig) (ts : List Int) :
    ∀ s : CircuitBreakerState, s.state = .halfOpen →
    s.consecutive_successes + ts.length < cfg.half_open_max_calls →
    (run_successes cfg s ts).state = .halfOpen ∧
    (run_successes cfg s ts).consecutive_successes =
      s.consecutive_successes + ts.length := by
  induction ts with
  | nil => intro s hs _; simpa using ⟨hs, rfl⟩
  | cons t ts ih =>
      intro s hs h
      simp only [List.length_cons] at h
      have hstep := call_succ_half_open cfg s t hs (by omega)
      rw [run_successes_cons]
      have hrec := ih _ hstep.1 (by rw [hstep.2]; omega)
      exact ⟨hrec.1, by rw [hrec.2, hstep.2]; simp only [List.length_cons]; omega⟩

/-- A failed call in HALF_OPEN reopens the circuit and zeroes
`consecutive_successes`. -/
lemma call_fail_half_open (cfg : CircuitBreakerConfig) (s : CircuitBreakerState)
    (t : Int) (hs : s.state = .halfOpen) :
    (call cfg s t false).st.state = .«open» ∧
    (call cfg s t false).st.consecutive_successes = 0 ∧
    (call cfg s t false).st.last_failure_time = some t := by
  have hr : should_attempt_reset cfg s t = false :=
    should_attempt_reset_of_not_open cfg s t (by simp [hs])
  simp [call, hr, hs, record_failure, transition_to_open]

/-- Claim C6: in HALF_OPEN, after any number of successes smaller than
`half_open_max_calls`, a single failed call transitions the breaker to OPEN
and resets `consecutive_successes` to 0. -/
theorem half_open_single_failure_reopens
    (cfg : CircuitBreakerConfig) (s : CircuitBreakerState) (ts : List Int)
    (now : Int)
    (hs : s.state = .halfOpen) (h0 : s.consecutive_successes = 0)
    (hlen : ts.length < cfg.half_open_max_calls) :
    (run_successes cfg s ts).state = .halfOpen ∧
    (run_successes cfg s ts).consecutive_successes = ts.length ∧
    (call cfg (run_successes cfg s ts) now false).st.state = .«open» ∧
    (call cfg (run_successes cfg s ts) now false).st.consecutive_successes = 0 := by
  have h := run_successes_half_open cfg ts s hs (by omega)
  have hf := call_fail_half_open cfg _ now h.1
  exact ⟨h.1, by rw [h.2, h0]; omega, hf.1, hf.2.1⟩

/-- Witness for C6: two successes then a failure under half-open max 3. -/
theorem half_open_single_failure_reopens_witness :
    (call ⟨5, 30, 3⟩ (run_successes ⟨5, 30, 3⟩ ⟨.halfOpen, 0, some 0, 0, 0⟩ [1, 2]) 3
      false).st.state = .«open» ∧
    (call ⟨5, 30, 3⟩ (run_successes ⟨5, 30, 3⟩ ⟨.halfOpen, 0, some 0, 0, 0⟩ [1, 2]) 3
      false).st.consecutive_successes = 0 :=
  have h := half_open_single_failure_reopens ⟨5, 30, 3⟩ ⟨.halfOpen, 0, some 0, 0, 0⟩
    [1, 2] 3 rfl rfl (by decide)
  ⟨h.2.2.1, h.2.2.2⟩

/-- A successful call in HALF_OPEN that reaches the success threshold runs
`_transition_to_closed` on the incremented state. -/
lemma call_succ_half_open_close (cfg : CircuitBreakerConfig)
    (s : CircuitBreakerState) (t : Int) (hs : s.state = .halfOpen)
    (hmax : cfg.half_open_max_calls ≤ s.consecutive_successes + 1) :
    (call cfg s t true).st =
      transition_to_closed
        { s with consecutive_successes := s.consecutive_successes + 1 } t := by
  have hr : should_attempt_reset cfg s t = false :=
    should_attempt_reset_of_not_open cfg s t (by simp [hs])
  simp [call, hr, hs, record_success, hmax]

lemma run_successes_close (cfg : CircuitBreakerConfig) (ts : List Int) :
    ∀ s : CircuitBreakerState, s.state = .halfOpen →
    s.consecutive_successes + ts.length = cfg.half_open_max_calls →
    0 < ts.length →
    (run_successes cfg s ts).state = .closed ∧
    (run_successes cfg s ts).failure_count = 0 ∧
    (run_successes cfg s ts).consecutive_successes = 0 := by
  induction ts with
  | nil => intro s _ _ h; simp at h
  | cons t ts ih =>
      intro s hs hsum _
      simp only [List.length_cons] at hsum
      rw [run_successes_cons]
      by_cases hmax : cfg.half_open_max_calls ≤ s.consecutive_successes + 1
      · have hts : ts = [] := List.length_eq_zero.mp (by omega)
        subst hts
        rw [call_succ_half_open_close cfg s t hs hmax]
        exact ⟨rfl, rfl, rfl⟩
      · have hstep := call_succ_half_open cfg s t hs (by omega)
        exact ih _ hstep.1 (by rw [hstep.2]; omega) (by omega)

/-- Claim C7: `half_open_max_calls` consecutive successes in HALF_OPEN close
the breaker with `failure_count = 0` and `consecutive_successes = 0`; and
every transition into CLOSED resets both counters to 0. -/
theorem half_open_max_successes_close_and_reset
    (cfg : CircuitBreakerConfig) (s : CircuitBreakerState) (ts : List Int)
    (hs : s.state = .halfOpen) (h0 : s.consecutive_successes = 0)
    (hlen : ts.length = cfg.half_open_max_calls)
    (hmax : 1 ≤ cfg.half_open_max_calls) :
    (run_successes cfg s ts).state = .closed ∧
    (run_successes cfg s ts).failure_count = 0 ∧
    (run_successes cfg s ts).consecutive_successes = 0 ∧
    ∀ (s₂ : CircuitBreakerState) (now : Int),
      (transition_to_closed s₂ now).failure_count = 0 ∧
      (transition_to_closed s₂ now).consecutive_successes = 0 := by
  have h := run_successes_close cfg ts s hs (by omega) (by omega)
  exact ⟨h.1, h.2.1, h.2.2, fun s₂ now => ⟨rfl, rfl⟩⟩

/-- Witness for C7: three successes under half-open max 3 close the breaker. -/
theorem half_open_max_successes_close_and_reset_witness :
    (run_successes ⟨5, 30, 3⟩ ⟨.halfOpen, 2, some 0, 0, 0⟩ [1, 2, 3]).state = .closed ∧
    (run_successes ⟨5, 30, 3⟩ ⟨.halfOpen, 2, some 0, 0, 0⟩ [1, 2, 3]).failure_count = 0 :=
  have h := half_open_max_successes_close_and_reset ⟨5, 30, 3⟩
    ⟨.halfOpen, 2, some 0, 0, 0⟩ [1, 2, 3] rfl rfl (by decide) (by decide)
  ⟨h.1, h.2.1⟩

lemma retry_attempts_shift (op : Nat → Except PyExc α) :
    ∀ (remaining calls : Nat),
      retry_attempts op (remaining + 1) (calls + 1) =
        (fun r => (r.1, r.2 + 1))
          (retry_attempts (fun i => op (i + 1)) (remaining + 1) calls) := by
  intro remaining
  induction remaining with
  | zero =>
      intro calls
      simp only [retry_attempts]
      cases op (calls + 1) <;> simp
  | succ r ih =>
      intro calls
      simp only [retry_attempts]
      cases h : op (calls + 1) with
      | ok v => simp
      | error e =>
          by_cases he : retriable_exception e = true
          · simpa [he] using ih (calls + 1)
          · simp [he]

lemma with_retry_skip_retriable_failures (α : Type) (op : Nat → Except PyExc α)
    (max_attempts k : Nat)
    (hk : k < max_attempts)
    (hfail : ∀ i, i < k → retriable_failure_at op i) :
    with_retry max_attempts op =
      (fun r => (r.1, r.2 + k))
        ((with_retry (max_attempts - k) (fun i => op (i + k)))) := by
  induction k generalizing op max_attempts with
  | zero => simp [with_retry]
  | succ k ih =>
      obtain ⟨e, he, hre⟩ := hfail 0 (Nat.succ_pos k)
      obtain ⟨m, rfl⟩ : ∃ m, max_attempts = m + 1 :=
        ⟨max_attempts - 1, by omega⟩
      have hm : k < m := by omega
      have hm0 : m ≠ 0 := by omega
      have hstep : with_retry (m + 1) op = (fun r => (r.1, r.2 + 1))
          (with_retry m (fun i => op (i + 1))) := by
        have hshift := retry_attempts_shift op (m - 1) 0
        simp only [with_retry, retry_attempts, he]
        rw [if_pos ⟨hre, hm0⟩]
        simp only [show m - 1 + 1 = m from by omega] at hshift
        simpa using hshift
      rw [hstep, ih (fun i => op (i + 1)) m hm
        (fun i hi => by
          obtain ⟨e', he', hre'⟩ := hfail (i + 1) (by omega)
          exact ⟨e', he', hre'⟩)]
      have harith : m - k = m + 1 - (k + 1) := by omega
      have hops : (fun i => op (i + k + 1)) = (fun i => op (i + (k + 1))) := by
        funext i; rfl
      rw [harith, hops]
      cases with_retry (m + 1 - (k + 1)) fun i => op (i + (k + 1)) with
      | mk r n => simp [Nat.add_assoc]


/-- Claim C8: (1) when an operation raises retryable errors on its first `k`
invocations, `k < max_attempts`, and succeeds on invocation `k`, the retry
wrapper returns that success and the operation is invoked exactly `k + 1`
times; (2) a non-retryable error on invocation `j` (after `j` retryable
failures) propagates immediately with no further attempts; (3) when all
`max_attempts` invocations raise retryable errors, the last error is
re-raised unchanged after exactly `max_attempts` invocations. -/
theorem retry_policy_attempt_accounting (α : Type) (op : Nat → Except PyExc α)
    (max_attempts : Nat) :
    (∀ k v, k < max_attempts → (∀ i, i < k → retriable_failure_at op i) →
      op k = .ok v → with_retry max_attempts op = (.ok v, k + 1)) ∧
    (∀ j e, j < max_attempts → (∀ i, i < j → retriable_failure_at op i) →
      op j = .error e → retriable_exception e = false →
      with_retry max_attempts op = (.error e, j + 1)) ∧
    (∀ e, 1 ≤ max_attempts →
      (∀ i, i + 1 < max_attempts → retriable_failure_at op i) →
      op (max_attempts - 1) = .error e → retriable_exception e = true →
      with_retry max_attempts op = (.error e, max_attempts)) := by
  refine ⟨?_, ?_, ?_⟩
  · intro k v hk hfail hok
    rw [with_retry_skip_retriable_failures α op max_attempts k hk hfail]
    have h1 : ∃ m, max_attempts - k = m + 1 := ⟨max_attempts - k - 1, by omega⟩
    obtain ⟨m, hm⟩ := h1
    rw [hm]
    simp [with_retry, retry_attempts, hok]
    omega
  · intro j e hj hfail herr hnre
    rw [with_retry_skip_retriable_failures α op max_attempts j hj hfail]
    obtain ⟨m, hm⟩ : ∃ m, max_attempts - j = m + 1 := ⟨max_attempts - j - 1, by omega⟩
    rw [hm]
    simp [with_retry, retry_attempts, herr, hnre]
    omega
  · intro e h1 hfail hlast hre
    have hk : max_attempts - 1 < max_attempts := by omega
    rw [with_retry_skip_retriable_failures α op max_attempts (max_attempts - 1) hk
      (fun i hi => hfail i (by omega))]
    have hm : max_attempts - (max_attempts - 1) = 1 := by omega
    rw [hm]
    simp [with_retry, retry_attempts, hlast, hre]
    omega


/-- Witness for C8 under the MCP retry configuration (5 attempts): two
retryable failures then a success give `(ok 42)` after exactly 3 invocations. -/
theorem retry_policy_attempt_accounting_witness :
    with_retry 5 retry_witness_op = (.ok 42, 3) :=
  (retry_policy_attempt_accounting Nat retry_witness_op 5).1 2 42 (by decide)
    (fun i hi => ⟨.connectionError, by simp [retry_witness_op, hi], rfl⟩)
    rfl

lemma assocLookup_insert (m : List (String × α)) (k : String) (v : α) :
    assocLookup (assocInsert m k v) k = some v := by
  induction m with
  | nil => simp [assocInsert, assocLookup]
  | cons p rest ih =>
      by_cases h : p.1 = k <;> simp [assocInsert, assocLookup, h, ih]


/-- A tracked started call is found in the correlation table. -/
lemma get_tracked_after_track (b : StreamBuilder) (cid n : String)
    (args : ToolArguments) (hcid : cid ≠ "") :
    (b.track_tool_call cid n args).get_tracked_tool_call cid = some (n, args) := by
  simp [StreamBuilder.track_tool_call, StreamBuilder.get_tracked_tool_call, hcid,
    assocLookup_insert]

/-- The `tool_output` branch never mutates the correlation table. -/
lemma handle_tool_output_preserves_table (st : StreamBuilder) (c : Option String) :
    (handle_tool_output st c).1.tool_calls_by_id = st.tool_calls_by_id := by
  cases c with
  | none => rfl
  | some cid =>
      by_cases hc : cid = ""
      · simp [handle_tool_output, hc]
      · simp only [handle_tool_output, hc, ne_eq, not_false_eq_true, if_true]
        cases h : st.get_tracked_tool_call cid with
        | none => rfl
        | some p => cases p; simp [StreamBuilder.add_tool_call]

lemma handle_tool_output_preserves_tracking (st : StreamBuilder) (c : Option String)
    (cid : String) :
    (handle_tool_output st c).1.get_tracked_tool_call cid =
      st.get_tracked_tool_call cid := by
  simp [StreamBuilder.get_tracked_tool_call, handle_tool_output_preserves_table]

/-- A correlated `tool_output` emits COMPLETED with the stored name/args. -/
lemma handle_tool_output_emits (st : StreamBuilder) (cid n : String)
    (args : ToolArguments) (hc : cid ≠ "")
    (h : st.get_tracked_tool_call cid = some (n, args)) :
    (handle_tool_output st (some cid)).2 =
      some (.tool_call n args .COMPLETED) := by
  simp [handle_tool_output, hc, h, StreamBuilder.add_tool_call]

/-- Claim C9: when a tool-invocation-started event carries its arguments as
a non-blank string that fails to parse as JSON, the mapper wraps the
original string as `[("raw", s)]` and still emits the
TOOL_CALL(IN_PROGRESS) event instead of failing the request. -/
theorem tool_called_parse_failure_wraps_raw_and_emits
    (parse : String → Option ToolArguments) (b : StreamBuilder)
    (n : String) (cid : Option String) (s : String)
    (hn : n ≠ "") (hs : py_str_is_blank s = false) (hparse : parse s = none) :
    (handle_tool_called parse b ⟨some n, cid, .argsStr s⟩).2 =
      some (.tool_call n [("raw", .jstr s)] .IN_PROGRESS) := by
  cases cid <;>
    simp [handle_tool_called, decode_tool_args, hs, hparse, hn,
      StreamBuilder.add_tool_call]

/-- Witness for C9: a parser that always fails, on the string "not json". -/
theorem tool_called_parse_failure_wraps_raw_and_emits_witness :
    (handle_tool_called (fun _ => none) {}
        ⟨some "create_todo", some "call_1", .argsStr "not json"⟩).2 =
      some (.tool_call "create_todo" [("raw", .jstr "not json")] .IN_PROGRESS) :=
  tool_called_parse_failure_wraps_raw_and_emits (fun _ => none) {} "create_todo"
    (some "call_1") "not json" (by decide) (by decide) rfl

/-- Claim C10: once a started event for `call_id` has been tracked, every
subsequent finished event for that `call_id` — including arbitrarily many
duplicates — still finds the correlation-table entry and emits
TOOL_CALL(COMPLETED) with the stored tool name and arguments; the entry is
never removed. -/
theorem tool_output_correlation_entry_persists
    (b : StreamBuilder) (cid n : String) (args : ToolArguments) (hcid : cid ≠ "") :
    ∀ k : Nat,
      ((fun st => (handle_tool_output st (some cid)).1)^[k]
          (b.track_tool_call cid n args)).get_tracked_tool_call cid
        = some (n, args) ∧
      (handle_tool_output
          ((fun st => (handle_tool_output st (some cid)).1)^[k]
            (b.track_tool_call cid n args)) (some cid)).2
        = some (.tool_call n args .COMPLETED) := by
  intro k
  induction k with
  | zero =>
      have h := get_tracked_after_track b cid n args hcid
      exact ⟨h, handle_tool_output_emits _ cid n args hcid h⟩
  | succ k ih =>
      rw [Function.iterate_succ_apply']
      have h : (handle_tool_output
          ((fun st => (handle_tool_output st (some cid)).1)^[k]
            (b.track_tool_call cid n args)) (some cid)).1.get_tracked_tool_call cid
          = some (n, args) := by
        rw [handle_tool_output_preserves_tracking]
        exact ih.1
      exact ⟨h, handle_tool_output_emits _ cid n args hcid h⟩

/-- Witness for C10: track a call, consume one finished event, and the
second finished event for the same id still emits COMPLETED. -/
theorem tool_output_correlation_entry_persists_witness :
    (handle_tool_output
        ((fun st => (handle_tool_output st (some "c1")).1)^[1]
          (StreamBuilder.track_tool_call {} "c1" "create_todo"
            [("title", .jstr "buy eggs")])) (some "c1")).2
      = some (.tool_call "create_todo" [("title", .jstr "buy eggs")] .COMPLETED) :=
  (tool_output_correlation_entry_persists {} "c1" "create_todo"
    [("title", .jstr "buy eggs")] (by decide) 1).2

/-- Counterexample to Claim C3 as stated: the message
"tool failed: invalid arguments" matches both the validation pattern
("invalid") and the tool-failure pattern ("tool" plus "failed"), yet the
classifier returns TOOL_EXECUTION_FAILED, not INVALID_TOOL_ARGUMENTS. -/
theorem error_classifier_order_counterexample :
    (handle_stream_exception "tool failed: invalid arguments" none).error_type
      = .TOOL_EXECUTION_FAILED ∧
    (handle_stream_exception "tool failed: invalid arguments" none).error_type
      ≠ .INVALID_TOOL_ARGUMENTS := by
  exact ⟨rfl, by decide⟩

/-- Claim C3 (amended): the classifier checks, in order, the connection
pattern ("mcp"/"connection"), the timeout pattern ("timeout"), the
tool-failure pattern ("tool" together with "failed" or "error"), the
validation pattern ("invalid"/"validation"), the database pattern
("database"/"db"/"constraint"), and otherwise returns GEMINI_API_ERROR; an
error matching both the tool-failure and validation patterns is classified
TOOL_EXECUTION_FAILED because the tool-failure check comes first. -/
theorem error_classifier_priority_order (s : String) (intent : Option String) :
    ((strContains s "mcp" || strContains s "connection") = true →
      (handle_stream_exception s intent).error_type = .MCP_CONNECTION_ERROR) ∧
    ((strContains s "mcp" || strContains s "connection") = false →
      strContains s "timeout" = true →
      (handle_stream_exception s intent).error_type = .TIMEOUT) ∧
    ((strContains s "mcp" || strContains s "connection") = false →
      strContains s "timeout" = false →
      (strContains s "tool" && (strContains s "failed" || strContains s "error")) = true →
      (handle_stream_exception s intent).error_type = .TOOL_EXECUTION_FAILED) ∧
    ((strContains s "mcp" || strContains s "connection") = false →
      strContains s "timeout" = false →
      (strContains s "tool" && (strContains s "failed" || strContains s "error")) = false →
      (strContains s "invalid" || strContains s "validation") = true →
      (handle_stream_exception s intent).error_type = .INVALID_TOOL_ARGUMENTS) ∧
    ((strContains s "mcp" || strContains s "connection") = false →
      strContains s "timeout" = false →
      (strContains s "tool" && (strContains s "failed" || strContains s "error")) = false →
      (strContains s "invalid" || strContains s "validation") = false →
      (strContains s "database" || strContains s "db" || strContains s "constraint") = true →
      (handle_stream_exception s intent).error_type = .TOOL_EXECUTION_FAILED) ∧
    ((strContains s "mcp" || strContains s "connection") = false →
      strContains s "timeout" = false →
      (strContains s "tool" && (strContains s "failed" || strContains s "error")) = false →
      (strContains s "invalid" || strContains s "validation") = false →
      (strContains s "database" || strContains s "db" || strContains s "constraint") = false →
      (handle_stream_exception s intent).error_type = .GEMINI_API_ERROR) := by
  refine ⟨?_, ?_, ?_, ?_, ?_, ?_⟩
  · intro h1
    simp only [handle_stream_exception]
    rw [if_pos (by simp [h1])]
  · intro h1 h2
    simp only [handle_stream_exception]
    rw [if_neg (by simp [h1]), if_pos (by simp [h2])]
  · intro h1 h2 h3
    simp only [handle_stream_exception]
    rw [if_neg (by simp [h1]), if_neg (by simp [h2]), if_pos (by simp [h3])]
  · intro h1 h2 h3 h4
    simp only [handle_stream_exception]
    rw [if_neg (by simp [h1]), if_neg (by simp [h2]), if_neg (by simp [h3]),
      if_pos (by simp [h4])]
  · intro h1 h2 h3 h4 h5
    simp only [handle_stream_exception]
    rw [if_neg (by simp [h1]), if_neg (by simp [h2]), if_neg (by simp [h3]),
      if_neg (by simp [h4]), if_pos (by simp [h5])]
  · intro h1 h2 h3 h4 h5
    simp only [handle_stream_exception]
    rw [if_neg (by simp [h1]), if_neg (by simp [h2]), if_neg (by simp [h3]),
      if_neg (by simp [h4]), if_neg (by simp [h5])]

/-- Witness for the amended C3 at the double-matching message. -/
theorem error_classifier_priority_order_witness :
    (handle_stream_exception "tool failed: invalid arguments" none).error_type
      = .TOOL_EXECUTION_FAILED :=
  (error_classifier_priority_order "tool failed: invalid arguments" none).2.2.1
    (by decide) (by decide) (by decide)

/-- Claim C4: with no Tool Server handle (`mcp_server is None`), the
generator emits exactly ERROR(MCP_CONNECTION_ERROR, recoverable = true)
followed by DONE(success = false, empty tools), independently of the agent
run (`body`, builder state, intent and termination are arbitrary and
unused), i.e. the Agent Runner is never consulted. -/
theorem degraded_mode_short_circuits
    (it : String) (body : List OutEvent) (b_after : StreamBuilder)
    (intent : Option String) (term : RunTerm) :
    chat_stream_generator none it body b_after intent term =
      [.error .MCP_CONNECTION_ERROR degraded_message true,
       .done "Service temporarily unavailable" [] false] := rfl

/-- Claim C1 fails on the code: when the agent run raises
`CircuitBreakerError`, the generator's dedicated handler yields an ERROR
event but never a DONE event, so the emitted sequence contains zero DONE
events and ends in ERROR (here evaluated on a run with an empty loop body
and the actual lowercased `CircuitBreakerError` message for the MCP
breaker). -/
theorem circuit_breaker_error_stream_has_no_done :
    ((chat_stream_generator (some ()) "Processing your request and analyzing intent..."
        [] {} none
        (.circuit_breaker_error
          "circuit breaker for \x27mcp_server\x27 is open. service temporarily unavailable.")).countP
      isDoneEvent = 0) ∧
    ((chat_stream_generator (some ()) "Processing your request and analyzing intent..."
        [] {} none
        (.circuit_breaker_error
          "circuit breaker for \x27mcp_server\x27 is open. service temporarily unavailable.")).getLast?.map
      isErrorEvent = some true) := by
  exact ⟨rfl, rfl⟩
